import Mathlib

/-!
Shallow embedding of the conversation-flow controller of the `agihousehackathon`
browser-extension UI (the `App` component in the two observed variants of
`App.tsx`, here called part_000 and part_001).

The component state is `messages` (the transcript), `questionCount` and
`pageInfo`.  `handleSend` appends the user's turn via a functional state
update, then dispatches to exactly one of `composioSignIn`,
`generateQuestion` or `generateInsights`.  Two points of the JavaScript
semantics are embedded explicitly:

* the dispatch conditions (`messages.length == 0` resp. `== 2`,
  `questionCount < 2` resp. `< 5`) and the prompt constructions read the
  `messages` and `questionCount` captured by the render closure, i.e. the
  values from BEFORE the user turn appended by this call;
* `composioSignIn` and `generateInsights` have no try/catch, so a rejected
  promise there appends no turn at all (the rejection is unhandled), while
  `generateQuestion` catches and appends a fixed error turn.

External collaborators (the Anthropic completion call and the Composio
authorization call) are modelled by an `Env` giving the outcome the one
invoked call would have; the list of invocations actually made is returned
alongside the new state.  The two variants differ only in the two numeric
constants, collected in `Config`.
-/

set_option maxRecDepth 100000

namespace MeMd

/-- Speaker of a turn: the `role` field of a message, `user` or `assistant`. -/
inductive Role where
  | user
  | assistant
deriving DecidableEq, Repr

/-- One chat message: `{ role, content }`. -/
structure Turn where
  role : Role
  content : String
deriving DecidableEq, Repr

/-- The page info delivered by the extension bridge: `{ title, url }`. -/
structure PageInfo where
  title : String
  url : String
deriving DecidableEq, Repr

/-- The React component state: `messages`, `questionCount`, `pageInfo`. -/
structure AppState where
  messages : List Turn
  questionCount : Nat
  pageInfo : Option PageInfo
deriving DecidableEq, Repr

/-- Initial state: `useState([])`, `useState(0)`, `useState(null)`. -/
def initState : AppState := ⟨[], 0, none⟩

/-- The two constants that differ between the two variants of the component:
the transcript length at which `handleSend` triggers the authorization flow,
and the question limit compared against `questionCount`. -/
structure Config where
  identityPos : Nat
  questionLimit : Nat
deriving DecidableEq, Repr

/-- Constants of variant part_001: `messages.length == 0`, `questionCount < 2`. -/
def configPart001 : Config := ⟨0, 2⟩

/-- Constants of variant part_000: `messages.length == 2`, `questionCount < 5`. -/
def configPart000 : Config := ⟨2, 5⟩

/-- First content block of a completion response: a `text` block carrying its
`text` field, or a block of any other type (the code only tests
`response.content[0].type === 'text'`). -/
inductive ContentBlock where
  | text (s : String)
  | other
deriving DecidableEq, Repr

/-- Outcomes the external collaborators would produce on this call:
`completion = some b` means `anthropic.messages.create` resolves with first
content block `b`, `none` means it rejects; `auth = some url` means
`composio.toolkits.authorize` resolves with `redirectUrl = url`, `none`
means it rejects. -/
structure Env where
  completion : Option ContentBlock
  auth : Option String
deriving DecidableEq, Repr

/-- An external call made during one `handleSend`: the authorization call with
its identity token, or a completion call with the full messages array sent. -/
inductive Invocation where
  | authorize (token : String)
  | complete (request : List Turn)
deriving DecidableEq, Repr

/-- Embedding of JavaScript `String.prototype.trim()`: drop whitespace from
both ends.  (Defined by structural recursion over the character list so that
concrete instances evaluate.) -/
def jsTrim (s : String) : String :=
  ⟨((s.data.dropWhile Char.isWhitespace).reverse.dropWhile Char.isWhitespace).reverse⟩

/-- Rendering of the response used in both completion paths:
`response.content[0].type === 'text' ? response.content[0].text : 'Response received'`. -/
def renderBlock : ContentBlock → String
  | .text s => s
  | .other => "Response received"

/-- The fixed error turn text of `generateQuestion`'s catch branch. -/
def questionErrorText : String := "Sorry, there was an error generating a response."

/-- The assistant turn appended by `composioSignIn` on success. -/
def authTurnText (redirectUrl : String) : String :=
  "🔗 Visit the URL to authorize:\n👉 " ++ redirectUrl

/-- JavaScript rendering of `pageInfo?.field` inside a template literal:
the field when present, the literal text `undefined` when `pageInfo` is null. -/
def jsUndef : Option String → String
  | some s => s
  | none => "undefined"

/-- System-style leading assistant turn of `generateQuestion`'s request. -/
def questionSystemText : String :=
  "You are a tool that wants to learn and infer about a user\x27s preferences based on the website they are on"

/-- The literal chunk of `generateQuestion`'s template literal after the
second splice. -/
def questionTailText : String :=
  " and the answers given so far, generate a question that is most useful to learn about their preferences for future uses of this website. Only output the question. Make sure that the question is answerable in maximum 3-5 words for the user. Ensure that previous questions don\x27t overlap in subject"

/-- The final user turn of `generateQuestion`'s request, a template literal
interpolating `pageInfo?.url` and `pageInfo?.title`. -/
def questionInstruction (pageInfo : Option PageInfo) : String :=
  "Based on the fact that they are at " ++ (jsUndef (pageInfo.map PageInfo.url) ++
    (" which is a site about " ++ (jsUndef (pageInfo.map PageInfo.title) ++
      questionTailText)))

/-- The messages array `generateQuestion` sends: leading assistant turn, the
spread of the (stale) `messages`, and the instruction turn. -/
def questionRequest (pageInfo : Option PageInfo) (msgs : List Turn) : List Turn :=
  ⟨Role.assistant, questionSystemText⟩ :: (msgs ++ [⟨Role.user, questionInstruction pageInfo⟩])

/-- System-style leading assistant turn of `generateInsights`'s request. -/
def insightsSystemText : String :=
  "You are Sherlock Holmes from the BBC show who uses these observations to think through a user\x27s preferences and motivations for this website."

/-- The final user turn of `generateInsights`'s request (the multi-line
template literal, transcribed with its newlines and indentation; braces and
apostrophes are written with hexadecimal escapes). -/
def insightsInstruction : String :=
  "Using the answers and questions from this interaction, make inferences and analyze the user\x27s preferences. Use these keywords \x27dietary\x27: \x7b\n" ++
  "                \x27vegetarian\x27, \x27vegan\x27, \x27allergy\x27, \x27allergic\x27, \x27spicy\x27, \x27mild\x27, \n" ++
  "                \x27meat\x27, \x27dairy\x27, \x27gluten\x27, \x27diet\x27, \x27dietary\x27\n" ++
  "            \x7d,\n" ++
  "            \x27cuisine\x27: \x7b\n" ++
  "                \x27asian\x27, \x27mexican\x27, \x27thai\x27, \x27chinese\x27, \x27indian\x27, \x27italian\x27, \n" ++
  "                \x27japanese\x27, \x27vietnamese\x27, \x27cuisine\x27, \x27food\x27, \x27restaurant\x27\n" ++
  "            \x7d,\n" ++
  "            \x27budget\x27: \x7b\n" ++
  "                \x27cheap\x27, \x27expensive\x27, \x27budget\x27, \x27price\x27, \x27cost\x27, \x27affordable\x27,\n" ++
  "                \x27$\x27, \x27$$\x27, \x27$$$\x27, \x27money\x27, \x27spend\x27\n" ++
  "            \x7d,\n" ++
  "            \x27location\x27: \x7b\n" ++
  "                \x27near\x27, \x27close\x27, \x27distance\x27, \x27neighborhood\x27, \x27area\x27, \x27transit\x27,\n" ++
  "                \x27walk\x27, \x27drive\x27, \x27uber\x27, \x27bart\x27, \x27muni\x27\n" ++
  "            \x7d,\n" ++
  "            \x27timing\x27: \x7b\n" ++
  "                \x27time\x27, \x27when\x27, \x27available\x27, \x27reservation\x27, \x27book\x27, \x27table\x27,\n" ++
  "                \x27tonight\x27, \x27tomorrow\x27, \x27weekend\x27, \x27lunch\x27, \x27dinner\x27, \x27breakfast\x27\n" ++
  "            \x7d and output with these choices in a json format. Remove the preamble and conclusion and only output the JSON"

/-- The messages array `generateInsights` sends. -/
def insightsRequest (msgs : List Turn) : List Turn :=
  ⟨Role.assistant, insightsSystemText⟩ :: (msgs ++ [⟨Role.user, insightsInstruction⟩])

/-- Embedding of `composioSignIn(email)` as observed from one `handleSend`:
it is passed the trimmed input; `current` is the transcript the functional
update sees (old transcript plus the just-appended user turn).  On success it
appends the redirect turn; there is no try/catch, so on rejection no turn is
appended.  Exactly one authorization invocation is made either way. -/
def composioSignIn (env : Env) (email : String) (current : List Turn) :
    List Turn × List Invocation :=
  match env.auth with
  | some redirectUrl =>
      (current ++ [⟨Role.assistant, authTurnText redirectUrl⟩], [.authorize email])
  | none => (current, [.authorize email])

/-- Embedding of `generateQuestion()`: the request is built from the stale
`messages` closure (`stale`) and `pageInfo`; on success the rendered first
block is appended to `current` and `setQuestionCount(questionCount + 1)` runs
on the stale count; the catch branch appends the fixed error turn and does not
touch the count. -/
def generateQuestion (env : Env) (pageInfo : Option PageInfo)
    (stale current : List Turn) (questionCount : Nat) :
    List Turn × Nat × List Invocation :=
  match env.completion with
  | some block =>
      (current ++ [⟨Role.assistant, renderBlock block⟩], questionCount + 1,
        [.complete (questionRequest pageInfo stale)])
  | none =>
      (current ++ [⟨Role.assistant, questionErrorText⟩], questionCount,
        [.complete (questionRequest pageInfo stale)])

/-- Embedding of `generateInsights()`: request built from the stale
`messages`; on success the rendered first block is appended; there is no
try/catch, so on rejection no turn is appended. -/
def generateInsights (env : Env) (stale current : List Turn) :
    List Turn × List Invocation :=
  match env.completion with
  | some block =>
      (current ++ [⟨Role.assistant, renderBlock block⟩], [.complete (insightsRequest stale)])
  | none => (current, [.complete (insightsRequest stale)])

/-- Result of one `handleSend`: the settled component state and the list of
external invocations made. -/
structure SendResult where
  state : AppState
  invocations : List Invocation
deriving DecidableEq, Repr

/-- Embedding of `handleSend`: `if (!input.trim()) return`; append
`{ role: 'user', content: input }`; then dispatch on the stale
`messages.length` and `questionCount`. -/
def handleSend (cfg : Config) (env : Env) (s : AppState) (input : String) :
    SendResult :=
  if jsTrim input = "" then ⟨s, []⟩
  else
    let current := s.messages ++ [⟨Role.user, input⟩]
    if s.messages.length = cfg.identityPos then
      let r := composioSignIn env (jsTrim input) current
      ⟨⟨r.1, s.questionCount, s.pageInfo⟩, r.2⟩
    else if s.questionCount < cfg.questionLimit then
      let r := generateQuestion env s.pageInfo s.messages current s.questionCount
      ⟨⟨r.1, r.2.1, s.pageInfo⟩, r.2.2⟩
    else
      let r := generateInsights env s.messages current
      ⟨⟨r.1, s.questionCount, s.pageInfo⟩, r.2⟩

/-- Embedding of the `getPageInfo` callback: on a response with truthy
`title` and `url` it stores the page info and appends the
`Current page: ...` assistant turn; otherwise nothing happens. -/
def getPageInfoCallback (response : Option PageInfo) (s : AppState) : AppState :=
  match response with
  | some p =>
      if p.title != "" && p.url != "" then
        { s with pageInfo := some p,
                 messages := s.messages ++ [⟨Role.assistant, "Current page: " ++ p.title⟩] }
      else s
  | none => s

/-- A session event: a form submission (with the collaborator outcomes it
would observe) or the asynchronous arrival of the page-info response. -/
inductive Event where
  | send (input : String) (env : Env)
  | pageInfoMsg (response : Option PageInfo)
deriving DecidableEq, Repr

/-- One step of the session. -/
def step (cfg : Config) (s : AppState) : Event → AppState
  | .send input env => (handleSend cfg env s input).state
  | .pageInfoMsg response => getPageInfoCallback response s

/-- Running a list of session events in order. -/
def run (cfg : Config) (s : AppState) : List Event → AppState
  | [] => s
  | e :: es => run cfg (step cfg s e) es

/-- The dispatch policy as a function of an explicit transcript-length
argument, used to state which length `handleSend` consults. -/
def policyInvocation (cfg : Config) (transcriptLen questionCount : Nat)
    (input : String) (pageInfo : Option PageInfo) (msgs : List Turn) : Invocation :=
  if transcriptLen = cfg.identityPos then .authorize (jsTrim input)
  else if questionCount < cfg.questionLimit then .complete (questionRequest pageInfo msgs)
  else .complete (insightsRequest msgs)

/-- Number of `send` events in an event list. -/
def sendCount (es : List Event) : Nat :=
  es.countP fun e => match e with
    | .send _ _ => true
    | _ => false

/-- Number of page-info events that actually append a turn (a response with
truthy `title` and `url`). -/
def pageTurnCount (es : List Event) : Nat :=
  es.countP fun e => match e with
    | .pageInfoMsg (some p) => p.title != "" && p.url != ""
    | _ => false

/-- Substring containment of `pat` in `s`. -/
def strIncludes (s pat : String) : Prop := ∃ a b, s = a ++ (pat ++ b)

/-- C7: a `submit` whose text is empty or whitespace-only is a no-op: the
state (transcript, questionCount, pageInfo) is unchanged and no external
collaborator is invoked. -/
theorem empty_input_noop (cfg : Config) (env : Env) (s : AppState)
    (input : String) (h : jsTrim input = "") :
    handleSend cfg env s input = ⟨s, []⟩ := by
  simp [handleSend, h]

/-- Witness for `empty_input_noop` at the whitespace input `"   "`. -/
theorem empty_input_noop_witness :
    jsTrim "   " = "" ∧
      handleSend configPart001 ⟨some (ContentBlock.text "q"), some "url"⟩
        initState "   " = ⟨initState, []⟩ :=
  ⟨by decide,
    empty_input_noop configPart001 ⟨some (ContentBlock.text "q"), some "url"⟩
      initState "   " (by decide)⟩

/-- C1: on every `submit` with non-empty (trimmed) text, the dispatch policy
is evaluated in fixed order with first match winning — identity position
first, then `questionCount < questionLimit` for a clarifying question, else
the preference summary — and the invocation list is a singleton: exactly one
external invocation is made per call. -/
theorem submit_dispatch_order (cfg : Config) (env : Env) (s : AppState)
    (input : String) (h : jsTrim input ≠ "") :
    (handleSend cfg env s input).invocations =
      [if s.messages.length = cfg.identityPos then
          Invocation.authorize (jsTrim input)
        else if s.questionCount < cfg.questionLimit then
          Invocation.complete (questionRequest s.pageInfo s.messages)
        else
          Invocation.complete (insightsRequest s.messages)] := by
  by_cases h1 : s.messages.length = cfg.identityPos
  · cases henv : env.auth with
    | some url => simp [handleSend, h, h1, composioSignIn, henv]
    | none => simp [handleSend, h, h1, composioSignIn, henv]
  · by_cases h2 : s.questionCount < cfg.questionLimit
    · cases henv : env.completion with
      | some b => simp [handleSend, h, h1, h2, generateQuestion, henv]
      | none => simp [handleSend, h, h1, h2, generateQuestion, henv]
    · cases henv : env.completion with
      | some b => simp [handleSend, h, h1, h2, generateInsights, henv]
      | none => simp [handleSend, h, h1, h2, generateInsights, henv]

/-- Witness for `submit_dispatch_order` at the first submit of a session. -/
theorem submit_dispatch_order_witness :
    jsTrim "alice@example.com" ≠ "" ∧
      (handleSend configPart001 ⟨none, some "https://r"⟩ initState
          "alice@example.com").invocations =
        [if initState.messages.length = configPart001.identityPos then
            Invocation.authorize (jsTrim "alice@example.com")
          else if initState.questionCount < configPart001.questionLimit then
            Invocation.complete (questionRequest initState.pageInfo initState.messages)
          else
            Invocation.complete (insightsRequest initState.messages)] :=
  ⟨by decide,
    submit_dispatch_order configPart001 ⟨none, some "https://r"⟩ initState
      "alice@example.com" (by decide)⟩

/-- C2 counterexample: at the very first submit of a session (variant
part_001, identity position 0), the invocation actually made is NOT the one
the policy would pick when evaluated at the transcript length that includes
the just-appended user turn (`length + 1`): the code authorizes, while the
post-append policy would ask a question. -/
theorem submit_postappend_length_cex :
    (handleSend configPart001 ⟨none, none⟩ initState "alice").invocations ≠
      [policyInvocation configPart001 (initState.messages.length + 1)
        initState.questionCount "alice" initState.pageInfo initState.messages] := by
  decide

/-- C2 amended: the dispatch policy is evaluated against the transcript
length from BEFORE the user turn appended by this submit call (the stale
`messages` closure), not the length including it. -/
theorem submit_preappend_length (cfg : Config) (env : Env) (s : AppState)
    (input : String) (h : jsTrim input ≠ "") :
    (handleSend cfg env s input).invocations =
      [policyInvocation cfg s.messages.length s.questionCount input
        s.pageInfo s.messages] := by
  by_cases h1 : s.messages.length = cfg.identityPos
  · cases henv : env.auth with
    | some url => simp [handleSend, policyInvocation, h, h1, composioSignIn, henv]
    | none => simp [handleSend, policyInvocation, h, h1, composioSignIn, henv]
  · by_cases h2 : s.questionCount < cfg.questionLimit
    · cases henv : env.completion with
      | some b => simp [handleSend, policyInvocation, h, h1, h2, generateQuestion, henv]
      | none => simp [handleSend, policyInvocation, h, h1, h2, generateQuestion, henv]
    · cases henv : env.completion with
      | some b => simp [handleSend, policyInvocation, h, h1, h2, generateInsights, henv]
      | none => simp [handleSend, policyInvocation, h, h1, h2, generateInsights, henv]

/-- Witness for `submit_preappend_length` at a concrete second submit. -/
theorem submit_preappend_length_witness :
    jsTrim "vegetarian" ≠ "" ∧
      (handleSend configPart001 ⟨some (ContentBlock.text "q1"), none⟩
          ⟨[⟨Role.user, "alice"⟩], 0, none⟩ "vegetarian").invocations =
        [policyInvocation configPart001 1 0 "vegetarian" none [⟨Role.user, "alice"⟩]] :=
  ⟨by decide,
    submit_preappend_length configPart001 ⟨some (ContentBlock.text "q1"), none⟩
      ⟨[⟨Role.user, "alice"⟩], 0, none⟩ "vegetarian" (by decide)⟩

/-- C3 counterexample: a failing summarization dispatch appends NO Agent
error turn.  Starting from a transcript with one turn and `questionCount = 2`
(variant part_001, so the summarization path is taken), a submit whose
completion call fails leaves the transcript with only the user turn appended:
the failure is not caught and converted into a visible Agent error turn. -/
theorem uncaught_failure_cex :
    ((handleSend configPart001 ⟨none, none⟩
        ⟨[⟨Role.assistant, "Current page: X"⟩], 2, none⟩ "pizza").state).messages =
      [⟨Role.assistant, "Current page: X"⟩, ⟨Role.user, "pizza"⟩] := by
  decide

/-- C3 amended: only the question-generation path catches a collaborator
failure and converts it into exactly one fixed Agent error turn (leaving
`questionCount` unchanged); a failing authorization or summarization
invocation appends no Agent turn at all (the rejection is unhandled), though
the session state itself survives for the next submit. -/
theorem failure_handling (cfg : Config) (s : AppState) (input : String)
    (h : jsTrim input ≠ "") :
    (s.messages.length ≠ cfg.identityPos → s.questionCount < cfg.questionLimit →
        (handleSend cfg ⟨none, none⟩ s input).state.messages =
          s.messages ++ [⟨Role.user, input⟩, ⟨Role.assistant, questionErrorText⟩] ∧
        (handleSend cfg ⟨none, none⟩ s input).state.questionCount = s.questionCount)
    ∧ (s.messages.length = cfg.identityPos →
        (handleSend cfg ⟨none, none⟩ s input).state.messages =
          s.messages ++ [⟨Role.user, input⟩])
    ∧ (s.messages.length ≠ cfg.identityPos → ¬ s.questionCount < cfg.questionLimit →
        (handleSend cfg ⟨none, none⟩ s input).state.messages =
          s.messages ++ [⟨Role.user, input⟩]) := by
  refine ⟨fun h1 h2 => ?_, fun h1 => ?_, fun h1 h2 => ?_⟩
  · constructor
    · simp [handleSend, h, h1, h2, generateQuestion]
    · simp [handleSend, h, h1, h2, generateQuestion]
  · simp [handleSend, h, h1, composioSignIn]
  · simp [handleSend, h, h1, h2, generateInsights]

/-- Witness for `failure_handling` on a concrete failing question dispatch. -/
theorem failure_handling_witness :
    jsTrim "thai" ≠ "" ∧
      ((handleSend configPart001 ⟨none, none⟩
          ⟨[⟨Role.user, "alice"⟩], 0, none⟩ "thai").state.messages =
        [⟨Role.user, "alice"⟩] ++ [⟨Role.user, "thai"⟩, ⟨Role.assistant, questionErrorText⟩] ∧
      (handleSend configPart001 ⟨none, none⟩
          ⟨[⟨Role.user, "alice"⟩], 0, none⟩ "thai").state.questionCount = 0) :=
  ⟨by decide,
    (failure_handling configPart001 ⟨[⟨Role.user, "alice"⟩], 0, none⟩ "thai"
      (by decide)).1 (by decide) (by decide)⟩

/-- C5: on a question-generation dispatch (non-empty input, not the identity
position, `questionCount` under the limit), `questionCount` increases by
exactly 1 when the completion call succeeds and by exactly 0 when it fails,
the failed attempt appending the fixed error Agent turn instead. -/
theorem question_count_delta (cfg : Config) (env : Env) (s : AppState)
    (input : String) (h : jsTrim input ≠ "")
    (h1 : s.messages.length ≠ cfg.identityPos)
    (h2 : s.questionCount < cfg.questionLimit) :
    ((∃ b, env.completion = some b) →
        (handleSend cfg env s input).state.questionCount = s.questionCount + 1)
    ∧ (env.completion = none →
        (handleSend cfg env s input).state.questionCount = s.questionCount ∧
        (handleSend cfg env s input).state.messages =
          s.messages ++ [⟨Role.user, input⟩, ⟨Role.assistant, questionErrorText⟩]) := by
  constructor
  · rintro ⟨b, henv⟩
    simp [handleSend, h, h1, h2, generateQuestion, henv]
  · intro henv
    constructor
    · simp [handleSend, h, h1, h2, generateQuestion, henv]
    · simp [handleSend, h, h1, h2, generateQuestion, henv]

/-- Witness for `question_count_delta` on a concrete successful dispatch. -/
theorem question_count_delta_witness :
    jsTrim "thai food" ≠ "" ∧
      (handleSend configPart001 ⟨some (ContentBlock.text "What cuisine?"), none⟩
          ⟨[⟨Role.user, "alice"⟩], 1, none⟩ "thai food").state.questionCount = 1 + 1 :=
  ⟨by decide,
    (question_count_delta configPart001 ⟨some (ContentBlock.text "What cuisine?"), none⟩
        ⟨[⟨Role.user, "alice"⟩], 1, none⟩ "thai food" (by decide) (by decide)
        (by decide)).1 ⟨ContentBlock.text "What cuisine?", rfl⟩⟩

/-- C9: on both completion paths (question generation and summarization),
when the completion call succeeds but its first content block is not of text
type, the Agent turn appended is the fixed literal `Response received`. -/
theorem nontext_block_turn (cfg : Config) (s : AppState) (input : String)
    (auth : Option String) (h : jsTrim input ≠ "")
    (h1 : s.messages.length ≠ cfg.identityPos) :
    (handleSend cfg ⟨some ContentBlock.other, auth⟩ s input).state.messages =
      s.messages ++ [⟨Role.user, input⟩, ⟨Role.assistant, "Response received"⟩] := by
  by_cases h2 : s.questionCount < cfg.questionLimit
  · simp [handleSend, h, h1, h2, generateQuestion, renderBlock]
  · simp [handleSend, h, h1, h2, generateInsights, renderBlock]

/-- Witness for `nontext_block_turn` on a summarization dispatch whose
response starts with a non-text block. -/
theorem nontext_block_turn_witness :
    jsTrim "summarize" ≠ "" ∧
      (handleSend configPart001 ⟨some ContentBlock.other, none⟩
          ⟨[⟨Role.user, "alice"⟩], 2, none⟩ "summarize").state.messages =
        [⟨Role.user, "alice"⟩] ++
          [⟨Role.user, "summarize"⟩, ⟨Role.assistant, "Response received"⟩] :=
  ⟨by decide,
    nontext_block_turn configPart001 ⟨[⟨Role.user, "alice"⟩], 2, none⟩ "summarize"
      none (by decide) (by decide)⟩

/-- C10: on a submit whose text is non-empty but not equal to its trimmed
form, the User turn appended right after the old transcript carries the raw
untrimmed text, while on the identity-turn path the token handed to the
Authorization Service is the trimmed text. -/
theorem raw_text_turn_trimmed_token (cfg : Config) (env : Env) (s : AppState)
    (input : String) (h : jsTrim input ≠ "") (hws : input ≠ jsTrim input) :
    (∃ rest, (handleSend cfg env s input).state.messages =
        s.messages ++ (⟨Role.user, input⟩ :: rest))
    ∧ (s.messages.length = cfg.identityPos →
        (handleSend cfg env s input).invocations =
          [Invocation.authorize (jsTrim input)]) := by
  constructor
  · by_cases h1 : s.messages.length = cfg.identityPos
    · cases henv : env.auth with
      | some url =>
          exact ⟨[⟨Role.assistant, authTurnText url⟩],
            by simp [handleSend, h, h1, composioSignIn, henv]⟩
      | none => exact ⟨[], by simp [handleSend, h, h1, composioSignIn, henv]⟩
    · by_cases h2 : s.questionCount < cfg.questionLimit
      · cases henv : env.completion with
        | some b =>
            exact ⟨[⟨Role.assistant, renderBlock b⟩],
              by simp [handleSend, h, h1, h2, generateQuestion, henv]⟩
        | none =>
            exact ⟨[⟨Role.assistant, questionErrorText⟩],
              by simp [handleSend, h, h1, h2, generateQuestion, henv]⟩
      · cases henv : env.completion with
        | some b =>
            exact ⟨[⟨Role.assistant, renderBlock b⟩],
              by simp [handleSend, h, h1, h2, generateInsights, henv]⟩
        | none => exact ⟨[], by simp [handleSend, h, h1, h2, generateInsights, henv]⟩
  · intro h1
    cases henv : env.auth with
    | some url => simp [handleSend, h, h1, composioSignIn, henv]
    | none => simp [handleSend, h, h1, composioSignIn, henv]

/-- Witness for `raw_text_turn_trimmed_token` at the padded identity input
`" alice "`. -/
theorem raw_text_turn_trimmed_token_witness :
    jsTrim " alice " ≠ "" ∧ " alice " ≠ jsTrim " alice " ∧
      ((∃ rest, (handleSend configPart001 ⟨none, some "https://r"⟩ initState
          " alice ").state.messages = initState.messages ++ (⟨Role.user, " alice "⟩ :: rest))
      ∧ (initState.messages.length = configPart001.identityPos →
          (handleSend configPart001 ⟨none, some "https://r"⟩ initState
            " alice ").invocations = [Invocation.authorize (jsTrim " alice ")])) :=
  ⟨by decide, by decide,
    raw_text_turn_trimmed_token configPart001 ⟨none, some "https://r"⟩ initState
      " alice " (by decide) (by decide)⟩

/-- Helper: `handleSend` only ever appends to the transcript. -/
theorem handleSend_messages_append (cfg : Config) (env : Env) (s : AppState)
    (input : String) :
    ∃ t, (handleSend cfg env s input).state.messages = s.messages ++ t := by
  by_cases h : jsTrim input = ""
  · exact ⟨[], by simp [handleSend, h]⟩
  · by_cases h1 : s.messages.length = cfg.identityPos
    · cases henv : env.auth with
      | some url =>
          exact ⟨[⟨Role.user, input⟩, ⟨Role.assistant, authTurnText url⟩],
            by simp [handleSend, h, h1, composioSignIn, henv]⟩
      | none =>
          exact ⟨[⟨Role.user, input⟩],
            by simp [handleSend, h, h1, composioSignIn, henv]⟩
    · by_cases h2 : s.questionCount < cfg.questionLimit
      · cases henv : env.completion with
        | some b =>
            exact ⟨[⟨Role.user, input⟩, ⟨Role.assistant, renderBlock b⟩],
              by simp [handleSend, h, h1, h2, generateQuestion, henv]⟩
        | none =>
            exact ⟨[⟨Role.user, input⟩, ⟨Role.assistant, questionErrorText⟩],
              by simp [handleSend, h, h1, h2, generateQuestion, henv]⟩
      · cases henv : env.completion with
        | some b =>
            exact ⟨[⟨Role.user, input⟩, ⟨Role.assistant, renderBlock b⟩],
              by simp [handleSend, h, h1, h2, generateInsights, henv]⟩
        | none =>
            exact ⟨[⟨Role.user, input⟩],
              by simp [handleSend, h, h1, h2, generateInsights, henv]⟩

/-- Helper: one session step only appends to the transcript. -/
theorem step_messages_append (cfg : Config) (s : AppState) (e : Event) :
    ∃ t, (step cfg s e).messages = s.messages ++ t := by
  cases e with
  | send input env => exact handleSend_messages_append cfg env s input
  | pageInfoMsg r =>
      cases r with
      | some p =>
          by_cases hp : (p.title != "" && p.url != "") = true
          · exact ⟨[⟨Role.assistant, "Current page: " ++ p.title⟩],
              by simp [step, getPageInfoCallback, hp]⟩
          · exact ⟨[], by simp [step, getPageInfoCallback, hp]⟩
      | none => exact ⟨[], by simp [step, getPageInfoCallback]⟩

/-- Helper: a whole session run only appends to the transcript. -/
theorem run_messages_append (cfg : Config) (s : AppState) (es : List Event) :
    ∃ t, (run cfg s es).messages = s.messages ++ t := by
  induction es generalizing s with
  | nil => exact ⟨[], by simp [run]⟩
  | cons e es ih =>
      obtain ⟨t1, h1⟩ := step_messages_append cfg s e
      obtain ⟨t2, h2⟩ := ih (step cfg s e)
      exact ⟨t1 ++ t2, by rw [run, h2, h1, List.append_assoc]⟩

/-- Helper: `handleSend` never decreases `questionCount`. -/
theorem handleSend_questionCount_le (cfg : Config) (env : Env) (s : AppState)
    (input : String) :
    s.questionCount ≤ (handleSend cfg env s input).state.questionCount := by
  by_cases h : jsTrim input = ""
  · simp [handleSend, h]
  · by_cases h1 : s.messages.length = cfg.identityPos
    · cases henv : env.auth <;> simp [handleSend, h, h1, composioSignIn, henv]
    · by_cases h2 : s.questionCount < cfg.questionLimit
      · cases henv : env.completion <;>
          simp [handleSend, h, h1, h2, generateQuestion, henv]
      · cases henv : env.completion <;>
          simp [handleSend, h, h1, h2, generateInsights, henv]

/-- Helper: one session step never decreases `questionCount`. -/
theorem step_questionCount_le (cfg : Config) (s : AppState) (e : Event) :
    s.questionCount ≤ (step cfg s e).questionCount := by
  cases e with
  | send input env => exact handleSend_questionCount_le cfg env s input
  | pageInfoMsg r =>
      cases r with
      | some p =>
          simp only [step, getPageInfoCallback]
          split <;> simp
      | none => simp [step, getPageInfoCallback]

/-- Helper: a whole session run never decreases `questionCount`. -/
theorem run_questionCount_le (cfg : Config) (s : AppState) (es : List Event) :
    s.questionCount ≤ (run cfg s es).questionCount := by
  induction es generalizing s with
  | nil => simp [run]
  | cons e es ih =>
      exact le_trans (step_questionCount_le cfg s e) (ih (step cfg s e))

/-- C4: from any session state past the identity position whose
`questionCount` has reached the limit, every subsequent submit with non-empty
text — after any further sequence of session events — makes exactly the
summarization invocation (never the question one), and `questionCount` is
never decremented along the way. -/
theorem past_limit_always_summarizes (cfg : Config) (s : AppState)
    (hpos : cfg.identityPos < s.messages.length)
    (hqc : cfg.questionLimit ≤ s.questionCount)
    (es : List Event) (input : String) (env : Env) (h : jsTrim input ≠ "") :
    (handleSend cfg env (run cfg s es) input).invocations =
      [Invocation.complete (insightsRequest (run cfg s es).messages)]
    ∧ s.questionCount ≤ (run cfg s es).questionCount := by
  obtain ⟨t, ht⟩ := run_messages_append cfg s es
  have hlen : cfg.identityPos < (run cfg s es).messages.length := by
    rw [ht, List.length_append]; omega
  have hq : cfg.questionLimit ≤ (run cfg s es).questionCount :=
    le_trans hqc (run_questionCount_le cfg s es)
  have h1 : (run cfg s es).messages.length ≠ cfg.identityPos := by omega
  have h2 : ¬ (run cfg s es).questionCount < cfg.questionLimit := by omega
  refine ⟨?_, run_questionCount_le cfg s es⟩
  cases henv : env.completion with
  | some b => simp [handleSend, h, h1, h2, generateInsights, henv]
  | none => simp [handleSend, h, h1, h2, generateInsights, henv]

/-- Witness for `past_limit_always_summarizes`: limit reached, one further
successful submit already run, then a fresh submit still summarizes. -/
theorem past_limit_always_summarizes_witness :
    configPart001.identityPos < ([⟨Role.user, "a"⟩] : List Turn).length ∧
      configPart001.questionLimit ≤ 2 ∧ jsTrim "more" ≠ "" ∧
      ((handleSend configPart001 ⟨some (ContentBlock.text "sum2"), none⟩
          (run configPart001 ⟨[⟨Role.user, "a"⟩], 2, none⟩
            [Event.send "any" ⟨some (ContentBlock.text "sum1"), none⟩])
          "more").invocations =
        [Invocation.complete (insightsRequest
          (run configPart001 ⟨[⟨Role.user, "a"⟩], 2, none⟩
            [Event.send "any" ⟨some (ContentBlock.text "sum1"), none⟩]).messages)]
      ∧ (2 : Nat) ≤ (run configPart001 ⟨[⟨Role.user, "a"⟩], 2, none⟩
          [Event.send "any" ⟨some (ContentBlock.text "sum1"), none⟩]).questionCount) :=
  ⟨by decide, by decide, by decide,
    past_limit_always_summarizes configPart001 ⟨[⟨Role.user, "a"⟩], 2, none⟩
      (by decide) (by decide)
      [Event.send "any" ⟨some (ContentBlock.text "sum1"), none⟩]
      "more" ⟨some (ContentBlock.text "sum2"), none⟩ (by decide)⟩

/-- Helper: a submit with non-empty text whose collaborator call (whichever
path is taken) succeeds appends exactly two turns. -/
theorem handleSend_success_length (cfg : Config) (env : Env) (s : AppState)
    (input : String) (h : jsTrim input ≠ "") (ha : env.auth.isSome = true)
    (hc : env.completion.isSome = true) :
    (handleSend cfg env s input).state.messages.length = s.messages.length + 2 := by
  obtain ⟨url, hurl⟩ := Option.isSome_iff_exists.mp ha
  obtain ⟨b, hb⟩ := Option.isSome_iff_exists.mp hc
  by_cases h1 : s.messages.length = cfg.identityPos
  · simp [handleSend, h, h1, composioSignIn, hurl]
  · by_cases h2 : s.questionCount < cfg.questionLimit
    · simp [handleSend, h, h1, h2, generateQuestion, hb]
    · simp [handleSend, h, h1, h2, generateInsights, hb]

/-- Helper: transcript length over a run in which every submit has non-empty
text and successful collaborator calls. -/
theorem run_length_success (cfg : Config) (es : List Event) :
    ∀ s : AppState,
      (∀ input env, Event.send input env ∈ es →
        jsTrim input ≠ "" ∧ env.auth.isSome = true ∧ env.completion.isSome = true) →
      (run cfg s es).messages.length =
        s.messages.length + 2 * sendCount es + pageTurnCount es := by
  induction es with
  | nil => intro s _; simp [run, sendCount, pageTurnCount]
  | cons e es ih =>
      intro s h
      have hrest : ∀ input env, Event.send input env ∈ es →
          jsTrim input ≠ "" ∧ env.auth.isSome = true ∧ env.completion.isSome = true :=
        fun input env hm => h input env (List.mem_cons_of_mem _ hm)
      cases e with
      | send input env =>
          obtain ⟨hin, hauth, hcomp⟩ := h input env (List.mem_cons_self _ _)
          have hstep : (step cfg s (Event.send input env)).messages.length =
              s.messages.length + 2 :=
            handleSend_success_length cfg env s input hin hauth hcomp
          rw [run, ih _ hrest, hstep]
          simp [sendCount, pageTurnCount, List.countP_cons]
          omega
      | pageInfoMsg r =>
          cases r with
          | some p =>
              by_cases hp : (p.title != "" && p.url != "") = true
              · have hstep : (step cfg s (Event.pageInfoMsg (some p))).messages.length =
                    s.messages.length + 1 := by
                  simp [step, getPageInfoCallback, hp]
                rw [run, ih _ hrest, hstep]
                simp [sendCount, pageTurnCount, List.countP_cons, hp]
                omega
              · have hstep : step cfg s (Event.pageInfoMsg (some p)) = s := by
                  simp [step, getPageInfoCallback, hp]
                rw [run, ih _ hrest, hstep]
                simp [sendCount, pageTurnCount, List.countP_cons, hp]
          | none =>
              have hstep : step cfg s (Event.pageInfoMsg none) = s := by
                simp [step, getPageInfoCallback]
              rw [run, ih _ hrest, hstep]
              simp [sendCount, pageTurnCount, List.countP_cons]

/-- C6 counterexample: a single submit at the identity position whose
authorization call fails leaves the transcript at length 1, not `2 * 1`: the
`2N` count does not hold when a collaborator call without a catch fails. -/
theorem transcript_length_cex :
    (run configPart001 initState [Event.send "alice" ⟨none, none⟩]).messages.length ≠
      2 * 1 := by
  decide

/-- C6 amended: over any event sequence in which every submit has non-empty
text and its collaborator calls succeed, the final transcript length is the
initial one plus `2 * N` plus one per page-context turn that arrived; and —
unconditionally — a run only ever appends to the transcript (no turn is
removed, reordered, or modified). -/
theorem transcript_length_eq (cfg : Config) (s : AppState) (es : List Event)
    (h : ∀ input env, Event.send input env ∈ es →
      jsTrim input ≠ "" ∧ env.auth.isSome = true ∧ env.completion.isSome = true) :
    (run cfg s es).messages.length =
      s.messages.length + 2 * sendCount es + pageTurnCount es
    ∧ ∀ (s' : AppState) (es' : List Event),
        ∃ t, (run cfg s' es').messages = s'.messages ++ t :=
  ⟨run_length_success cfg es s h, fun s' es' => run_messages_append cfg s' es'⟩

/-- Witness for `transcript_length_eq`: a page-context arrival followed by
two successful submits gives length `0 + 2 * 2 + 1 = 5`. -/
theorem transcript_length_eq_witness :
    (run configPart001 initState
        [Event.pageInfoMsg (some ⟨"OpenTable", "https://opentable.com"⟩),
         Event.send "alice" ⟨some (ContentBlock.text "q1"), some "https://r"⟩,
         Event.send "veggie" ⟨some (ContentBlock.text "q2"), some "https://r"⟩]).messages.length =
      initState.messages.length + 2 * sendCount
        [Event.pageInfoMsg (some ⟨"OpenTable", "https://opentable.com"⟩),
         Event.send "alice" ⟨some (ContentBlock.text "q1"), some "https://r"⟩,
         Event.send "veggie" ⟨some (ContentBlock.text "q2"), some "https://r"⟩]
      + pageTurnCount
        [Event.pageInfoMsg (some ⟨"OpenTable", "https://opentable.com"⟩),
         Event.send "alice" ⟨some (ContentBlock.text "q1"), some "https://r"⟩,
         Event.send "veggie" ⟨some (ContentBlock.text "q2"), some "https://r"⟩] :=
  (transcript_length_eq configPart001 initState
    [Event.pageInfoMsg (some ⟨"OpenTable", "https://opentable.com"⟩),
     Event.send "alice" ⟨some (ContentBlock.text "q1"), some "https://r"⟩,
     Event.send "veggie" ⟨some (ContentBlock.text "q2"), some "https://r"⟩]
    (by intro input env hm
        simp only [List.mem_cons, List.not_mem_nil, or_false] at hm
        rcases hm with hm | hm | hm
        · cases hm
        · cases hm; exact ⟨by decide, by decide, by decide⟩
        · cases hm; exact ⟨by decide, by decide, by decide⟩)).1

/-- Helper: a string includes a pattern it starts with. -/
theorem strIncludes_head (pat b : String) : strIncludes (pat ++ b) pat :=
  ⟨"", b, (String.empty_append (pat ++ b)).symm⟩

/-- Helper: substring inclusion survives prepending. -/
theorem strIncludes_append_left (a : String) {s pat : String}
    (h : strIncludes s pat) : strIncludes (a ++ s) pat := by
  obtain ⟨x, y, hxy⟩ := h
  exact ⟨a ++ x, y, by rw [hxy, String.append_assoc]⟩

/-- C8 counterexample: on a question-generation dispatch with `pageInfo`
absent, the request sent is literally the same as with a page titled
`undefined` at address `undefined` — the page-grounding text (with
`undefined` in place of address and title) is included even though no page
context is present — and the just-submitted user turn `hello` is not part of
the request at all. -/
theorem question_prompt_cex :
    (handleSend configPart001 ⟨some (ContentBlock.text "q"), none⟩
        ⟨[⟨Role.assistant, "Current page: X"⟩], 0, none⟩ "hello").invocations =
      (handleSend configPart001 ⟨some (ContentBlock.text "q"), none⟩
        ⟨[⟨Role.assistant, "Current page: X"⟩], 0,
          some ⟨"undefined", "undefined"⟩⟩ "hello").invocations
    ∧ Turn.mk Role.user "hello" ∉
        questionRequest none [⟨Role.assistant, "Current page: X"⟩] := by
  constructor
  · decide
  · decide

/-- C8 amended: on every question-generation dispatch the request contains
every turn of the transcript as it was BEFORE this submit (the just-appended
user turn is not included), plus an instruction turn that always carries the
page-grounding sentence — with the `pageContext` address and title spliced in
when present and the literal text `undefined` in their place when absent —
and the explicit 3-5-word and no-topic-overlap constraints. -/
theorem question_prompt_contents (cfg : Config) (env : Env) (s : AppState)
    (input : String) (h : jsTrim input ≠ "")
    (h1 : s.messages.length ≠ cfg.identityPos)
    (h2 : s.questionCount < cfg.questionLimit) :
    (handleSend cfg env s input).invocations =
      [Invocation.complete (questionRequest s.pageInfo s.messages)]
    ∧ (∀ t ∈ s.messages, t ∈ questionRequest s.pageInfo s.messages)
    ∧ Turn.mk Role.user (questionInstruction s.pageInfo) ∈
        questionRequest s.pageInfo s.messages
    ∧ (∀ p, s.pageInfo = some p →
        strIncludes (questionInstruction s.pageInfo) p.url ∧
        strIncludes (questionInstruction s.pageInfo) p.title)
    ∧ (s.pageInfo = none →
        strIncludes (questionInstruction s.pageInfo) "undefined")
    ∧ strIncludes (questionInstruction s.pageInfo)
        "answerable in maximum 3-5 words"
    ∧ strIncludes (questionInstruction s.pageInfo)
        "Ensure that previous questions don\x27t overlap in subject" := by
  have htail1 : strIncludes questionTailText "answerable in maximum 3-5 words" :=
    ⟨" and the answers given so far, generate a question that is most useful to learn about their preferences for future uses of this website. Only output the question. Make sure that the question is ",
      " for the user. Ensure that previous questions don\x27t overlap in subject",
      by decide⟩
  have htail2 : strIncludes questionTailText
      "Ensure that previous questions don\x27t overlap in subject" :=
    ⟨" and the answers given so far, generate a question that is most useful to learn about their preferences for future uses of this website. Only output the question. Make sure that the question is answerable in maximum 3-5 words for the user. ",
      "", by decide⟩
  refine ⟨?_, ?_, ?_, ?_, ?_, ?_, ?_⟩
  · cases henv : env.completion with
    | some b => simp [handleSend, h, h1, h2, generateQuestion, henv]
    | none => simp [handleSend, h, h1, h2, generateQuestion, henv]
  · intro t ht
    exact List.mem_cons_of_mem _ (List.mem_append_left _ ht)
  · exact List.mem_cons_of_mem _ (List.mem_append_right _ (List.mem_singleton_self _))
  · intro p hp
    rw [hp]
    constructor
    · unfold questionInstruction
      exact strIncludes_append_left _ (strIncludes_head _ _)
    · unfold questionInstruction
      exact strIncludes_append_left _ (strIncludes_append_left _
        (strIncludes_append_left _ (strIncludes_head _ _)))
  · intro hp
    rw [hp]
    unfold questionInstruction
    exact strIncludes_append_left _ (strIncludes_head _ _)
  · unfold questionInstruction
    exact strIncludes_append_left _ (strIncludes_append_left _
      (strIncludes_append_left _ (strIncludes_append_left _ htail1)))
  · unfold questionInstruction
    exact strIncludes_append_left _ (strIncludes_append_left _
      (strIncludes_append_left _ (strIncludes_append_left _ htail2)))

/-- Witness for `question_prompt_contents` on a concrete dispatch with page
context present. -/
theorem question_prompt_contents_witness :
    jsTrim "thai" ≠ "" ∧
      ((handleSend configPart001 ⟨some (ContentBlock.text "q2"), none⟩
          ⟨[⟨Role.user, "veggie"⟩], 1, some ⟨"OpenTable", "https://ot.example"⟩⟩
          "thai").invocations =
        [Invocation.complete (questionRequest (some ⟨"OpenTable", "https://ot.example"⟩)
          [⟨Role.user, "veggie"⟩])]
      ∧ (∀ t ∈ ([⟨Role.user, "veggie"⟩] : List Turn),
          t ∈ questionRequest (some ⟨"OpenTable", "https://ot.example"⟩)
            [⟨Role.user, "veggie"⟩])
      ∧ Turn.mk Role.user (questionInstruction (some ⟨"OpenTable", "https://ot.example"⟩)) ∈
          questionRequest (some ⟨"OpenTable", "https://ot.example"⟩) [⟨Role.user, "veggie"⟩]
      ∧ (∀ p, (some (⟨"OpenTable", "https://ot.example"⟩ : PageInfo)) = some p →
          strIncludes (questionInstruction (some ⟨"OpenTable", "https://ot.example"⟩)) p.url ∧
          strIncludes (questionInstruction (some ⟨"OpenTable", "https://ot.example"⟩)) p.title)
      ∧ ((some (⟨"OpenTable", "https://ot.example"⟩ : PageInfo)) = none →
          strIncludes (questionInstruction (some ⟨"OpenTable", "https://ot.example"⟩)) "undefined")
      ∧ strIncludes (questionInstruction (some ⟨"OpenTable", "https://ot.example"⟩))
          "answerable in maximum 3-5 words"
      ∧ strIncludes (questionInstruction (some ⟨"OpenTable", "https://ot.example"⟩))
          "Ensure that previous questions don\x27t overlap in subject") :=
  ⟨by decide,
    question_prompt_contents configPart001 ⟨some (ContentBlock.text "q2"), none⟩
      ⟨[⟨Role.user, "veggie"⟩], 1, some ⟨"OpenTable", "https://ot.example"⟩⟩
      "thai" (by decide) (by decide) (by decide)⟩

end MeMd
